import Mathlib

/-!
Shallow embedding of the BalanceCalc service (`src/main.py`): a small
personal-finance helper that tracks a shared prepaid meal card split between
"me" and "others".  Money values (Python floats used for exact small
amounts) are modelled as rationals; the SQLite-backed history table is
modelled as a list of records held newest-first (the code always orders by
`created_at` descending, and `created_at` is the insertion time), together
with the key/value settings table and the autoincrementing primary key.
HTTP endpoints become pure functions from request data and store to a
result (`Except` for the 400/404 error paths) paired with the resulting
store; raising `HTTPException` leaves the store untouched, since the code
raises before any `db.add`/`db.commit`.
-/

namespace BalanceCalc

/-- Money amounts (`float` in the source) modelled as exact rationals. -/
abbrev Money := ℚ

/-- A row of the `calculation_history` table (class `CalculationHistory`). -/
structure CalculationHistory where
  id : Nat
  initial_total : Money
  my_initial : Money
  my_charge : Money
  final_total : Money
  others_money : Money
  my_remaining : Money
  my_consumed : Money
  note : String
deriving Repr, DecidableEq

/-- Request body of `POST /api/calculate/` (pydantic model `CardCalculation`). -/
structure CardCalculation where
  initial_total : Money
  my_initial : Money
  my_charge : Money
  final_total : Money
  note : String := ""
deriving Repr, DecidableEq

/-- Response of `POST /api/calculate/` (pydantic model `CalculationResult`). -/
structure CalculationResult where
  id : Nat
  others_money : Money
  my_remaining : Money
  my_consumed : Money
  calculation_steps : List String
deriving Repr, DecidableEq

/-- The error responses the endpoints raise via `HTTPException`:
400 `InvalidInput` with its detail string, 400 no-history, 404 not-found. -/
inductive ApiError where
  | invalidInput (detail : String)
  | noHistory
  | notFound
deriving Repr, DecidableEq

/-- The Ledger Store: `calculation_history` rows newest-first, the
`saved_settings` key/value table, and the next autoincrement id. -/
structure Store where
  history : List CalculationHistory
  settings : List (String × Money)
  nextId : Nat
deriving Repr, DecidableEq

/-- Detail string of validation rule 1 (any amount negative),
`main.py:130`: "all amounts must be ≥ 0". -/
def MSG_NEGATIVE : String := "所有金额都必须大于等于0"

/-- Detail string of validation rule 2 (`my_initial > initial_total`),
`main.py:133`: "your initial amount cannot exceed the card total". -/
def MSG_EXCEEDS : String := "你的初始金额不能超过饭卡总额"

/-- Detail string of validation rule 3 (`my_remaining < 0`),
`main.py:160`: "resulting balance is negative, check the inputs". -/
def MSG_NEG_REMAINING : String := "计算结果显示你的余额为负数，请检查输入数据"

/-- Detail string of validation rule 4 (`my_consumed < 0`),
`main.py:163`: "resulting consumption is negative, check the inputs". -/
def MSG_NEG_CONSUMED : String := "计算结果显示你的消费为负数，请检查输入数据"

/-- The `CalculationHistory` row persisted by a successful
`calculate_money` call (`main.py:166-175`): input fields plus the derived
`others_money`, `my_remaining`, `my_consumed`, with the next id. -/
def mkRecord (data : CardCalculation) (db : Store) : CalculationHistory :=
  { id := db.nextId
    initial_total := data.initial_total
    my_initial := data.my_initial
    my_charge := data.my_charge
    final_total := data.final_total
    others_money := data.initial_total - data.my_initial
    my_remaining := data.final_total - (data.initial_total - data.my_initial)
    my_consumed := (data.my_initial + data.my_charge) -
      (data.final_total - (data.initial_total - data.my_initial))
    note := data.note }

/-- `POST /api/calculate/` (`calculate_money`, `main.py:126-187`): validate,
derive the five values in order (each step appending a human-readable trace
line), validate the derived values, then persist exactly one record. -/
def calculate_money (data : CardCalculation) (db : Store) :
    Except ApiError CalculationResult × Store :=
  if data.initial_total < 0 ∨ data.my_initial < 0 ∨ data.my_charge < 0 ∨
      data.final_total < 0 then
    (.error (.invalidInput MSG_NEGATIVE), db)
  else if data.my_initial > data.initial_total then
    (.error (.invalidInput MSG_EXCEEDS), db)
  else
    let others_money := data.initial_total - data.my_initial
    let step1 := "别人的金额 = 饭卡初始总额 - 你的初始金额 = " ++
      toString data.initial_total ++ " - " ++ toString data.my_initial ++
      " = " ++ toString others_money
    let my_after_charge := data.my_initial + data.my_charge
    let step2 := "你充值后的金额 = 你的初始金额 + 充值金额 = " ++
      toString data.my_initial ++ " + " ++ toString data.my_charge ++
      " = " ++ toString my_after_charge
    let total_after_charge := data.initial_total + data.my_charge
    let step3 := "充值后饭卡总额 = 初始总额 + 充值金额 = " ++
      toString data.initial_total ++ " + " ++ toString data.my_charge ++
      " = " ++ toString total_after_charge
    let my_remaining := data.final_total - others_money
    let step4 := "你剩余的金额 = 打饭后总余额 - 别人的金额 = " ++
      toString data.final_total ++ " - " ++ toString others_money ++
      " = " ++ toString my_remaining
    let my_consumed := my_after_charge - my_remaining
    let step5 := "你消费的金额 = 充值后你的金额 - 你剩余的金额 = " ++
      toString my_after_charge ++ " - " ++ toString my_remaining ++
      " = " ++ toString my_consumed
    let steps := [step1, step2, step3, step4, step5]
    if my_remaining < 0 then
      (.error (.invalidInput MSG_NEG_REMAINING), db)
    else if my_consumed < 0 then
      (.error (.invalidInput MSG_NEG_CONSUMED), db)
    else
      let history_record := mkRecord data db
      (.ok { id := history_record.id
             others_money := others_money
             my_remaining := my_remaining
             my_consumed := my_consumed
             calculation_steps := steps },
       { db with history := history_record :: db.history, nextId := db.nextId + 1 })

/-- `POST /api/quick_calculate/` (`quick_calculate`, `main.py:190-221`):
take the latest record, use its `others_money` and `my_remaining` as the
base, build a full `CardCalculation` request and delegate to
`calculate_money`. -/
def quick_calculate (charge_amount final_total : Money) (note : String)
    (db : Store) : Except ApiError CalculationResult × Store :=
  match db.history.head? with
  | none => (.error .noHistory, db)
  | some latest =>
    let others_money := latest.others_money
    let my_current_balance := latest.my_remaining
    let my_after_charge := my_current_balance + charge_amount
    let initial_total := others_money + my_current_balance
    let new_initial_total := initial_total + charge_amount
    let calc_data : CardCalculation :=
      { initial_total := new_initial_total
        my_initial := my_current_balance
        my_charge := charge_amount
        final_total := final_total
        note := note }
    calculate_money calc_data db

/-- Response of `GET /api/defaults/`. -/
structure DefaultsView where
  others_money : Money
  my_remaining : Money
deriving Repr, DecidableEq

/-- `GET /api/defaults/` (`get_defaults`, `main.py:114-123`): the latest
record's `others_money`/`my_remaining`, or the hardcoded fallback
`others_money = 7.0`, `my_remaining = 0.0` when there is no history. -/
def get_defaults (db : Store) : DefaultsView :=
  match db.history.head? with
  | some latest =>
    { others_money := latest.others_money, my_remaining := latest.my_remaining }
  | none => { others_money := 7, my_remaining := 0 }

/-- `DELETE /api/history/{record_id}` (`delete_history`, `main.py:232-240`):
delete the record with the given primary key, 404 if absent. -/
def delete_history (record_id : Nat) (db : Store) :
    Except ApiError String × Store :=
  match db.history.find? (fun r => r.id == record_id) with
  | none => (.error .notFound, db)
  | some _ =>
    (.ok "记录已删除",
     { db with history := db.history.eraseP (fun r => r.id == record_id) })

/-- `DELETE /api/history/` (`clear_all_history`, `main.py:243-248`): delete
every `calculation_history` row and every `saved_settings` row. -/
def clear_all_history (db : Store) : Store :=
  { db with history := [], settings := [] }

/-- A store with no history and no settings. -/
def emptyStore : Store := { history := [], settings := [], nextId := 1 }

/-- The record left by the base calculation `initial_total = 100`,
`my_initial = 40`, `my_charge = 10`, `final_total = 80`: `others_money = 60`,
`my_remaining = 20`, `my_consumed = 30`. -/
def baseRecord : CalculationHistory :=
  { id := 1, initial_total := 100, my_initial := 40, my_charge := 10
    final_total := 80, others_money := 60, my_remaining := 20
    my_consumed := 30, note := "" }

/-- The store after that single base calculation. -/
def baseStore : Store := { history := [baseRecord], settings := [], nextId := 2 }

example : mkRecord ⟨100, 40, 10, 80, ""⟩ emptyStore = baseRecord := by
  norm_num [mkRecord, emptyStore, baseRecord]

example : (calculate_money ⟨100, 40, 10, 80, ""⟩ emptyStore).2 = baseStore := by
  norm_num [calculate_money, mkRecord, emptyStore, baseStore, baseRecord]

/-- The invariants the spec's data model imposes on a persisted record. -/
def RecordInvariants (r : CalculationHistory) : Prop :=
  r.others_money = r.initial_total - r.my_initial ∧
  r.my_remaining = r.final_total - r.others_money ∧ 0 ≤ r.my_remaining ∧
  r.my_consumed = r.my_initial + r.my_charge - r.my_remaining ∧ 0 ≤ r.my_consumed

/-- C3: for every input passing validation, `calculate_money` returns
`others_money = initial_total - my_initial`,
`my_remaining = final_total - others_money`,
`my_consumed = (my_initial + my_charge) - my_remaining`, emits one trace
line per derivation step (five lines), and persists a record. -/
theorem calculate_money_derivation (data : CardCalculation) (db : Store)
    (h1 : 0 ≤ data.initial_total) (h2 : 0 ≤ data.my_initial)
    (h3 : 0 ≤ data.my_charge) (h4 : 0 ≤ data.final_total)
    (h5 : data.my_initial ≤ data.initial_total)
    (h6 : 0 ≤ data.final_total - (data.initial_total - data.my_initial))
    (h7 : 0 ≤ data.my_initial + data.my_charge -
      (data.final_total - (data.initial_total - data.my_initial))) :
    ∃ res db', calculate_money data db = (.ok res, db') ∧
      res.others_money = data.initial_total - data.my_initial ∧
      res.my_remaining = data.final_total - (data.initial_total - data.my_initial) ∧
      res.my_consumed = data.my_initial + data.my_charge - res.my_remaining ∧
      res.calculation_steps.length = 5 ∧
      db'.history = mkRecord data db :: db.history := by
  simp only [calculate_money]
  rw [if_neg (by push_neg; exact ⟨h1, h2, h3, h4⟩), if_neg (not_lt.mpr h5),
    if_neg (not_lt.mpr h6), if_neg (not_lt.mpr h7)]
  exact ⟨_, _, rfl, rfl, rfl, rfl, rfl, rfl⟩

/-- Witness for C3 at the spec's example `initial_total = 100`,
`my_initial = 40`, `my_charge = 10`, `final_total = 80`: the result is
`others_money = 60`, `my_remaining = 20`, `my_consumed = 30`, with five
trace lines and a persisted record. -/
theorem calculate_money_derivation_witness :
    ∃ res db', calculate_money ⟨100, 40, 10, 80, ""⟩ emptyStore = (.ok res, db') ∧
      res.others_money = 60 ∧ res.my_remaining = 20 ∧ res.my_consumed = 30 ∧
      res.calculation_steps.length = 5 ∧ db'.history.length = 1 := by
  obtain ⟨res, db', heq, ho, hr, hc, hs, hh⟩ :=
    calculate_money_derivation ⟨100, 40, 10, 80, ""⟩ emptyStore (by norm_num)
      (by norm_num) (by norm_num) (by norm_num) (by norm_num) (by norm_num)
      (by norm_num)
  refine ⟨res, db', heq, ?_, ?_, ?_, hs, ?_⟩
  · rw [ho]; norm_num
  · rw [hr]; norm_num
  · rw [hc, hr]; norm_num
  · rw [hh]; simp [emptyStore]

/-- C4: the four validation rules are evaluated in order, each with its own
distinct `InvalidInput` detail; an input violating an earlier rule gets that
earlier rule's error even if a later rule is also violated. -/
theorem calculate_money_validation_order (data : CardCalculation) (db : Store) :
    (MSG_NEGATIVE ≠ MSG_EXCEEDS ∧ MSG_NEGATIVE ≠ MSG_NEG_REMAINING ∧
      MSG_NEGATIVE ≠ MSG_NEG_CONSUMED ∧ MSG_EXCEEDS ≠ MSG_NEG_REMAINING ∧
      MSG_EXCEEDS ≠ MSG_NEG_CONSUMED ∧ MSG_NEG_REMAINING ≠ MSG_NEG_CONSUMED) ∧
    ((data.initial_total < 0 ∨ data.my_initial < 0 ∨ data.my_charge < 0 ∨
        data.final_total < 0) →
      calculate_money data db = (.error (.invalidInput MSG_NEGATIVE), db)) ∧
    (0 ≤ data.initial_total → 0 ≤ data.my_initial → 0 ≤ data.my_charge →
      0 ≤ data.final_total → data.initial_total < data.my_initial →
      calculate_money data db = (.error (.invalidInput MSG_EXCEEDS), db)) ∧
    (0 ≤ data.initial_total → 0 ≤ data.my_initial → 0 ≤ data.my_charge →
      0 ≤ data.final_total → data.my_initial ≤ data.initial_total →
      data.final_total - (data.initial_total - data.my_initial) < 0 →
      calculate_money data db = (.error (.invalidInput MSG_NEG_REMAINING), db)) ∧
    (0 ≤ data.initial_total → 0 ≤ data.my_initial → 0 ≤ data.my_charge →
      0 ≤ data.final_total → data.my_initial ≤ data.initial_total →
      0 ≤ data.final_total - (data.initial_total - data.my_initial) →
      data.my_initial + data.my_charge -
        (data.final_total - (data.initial_total - data.my_initial)) < 0 →
      calculate_money data db = (.error (.invalidInput MSG_NEG_CONSUMED), db)) := by
  refine ⟨⟨by decide, by decide, by decide, by decide, by decide, by decide⟩,
    ?_, ?_, ?_, ?_⟩
  · intro h
    simp only [calculate_money]
    rw [if_pos h]
  · intro h1 h2 h3 h4 h5
    simp only [calculate_money]
    rw [if_neg (by push_neg; exact ⟨h1, h2, h3, h4⟩), if_pos h5]
  · intro h1 h2 h3 h4 h5 h6
    simp only [calculate_money]
    rw [if_neg (by push_neg; exact ⟨h1, h2, h3, h4⟩), if_neg (not_lt.mpr h5),
      if_pos h6]
  · intro h1 h2 h3 h4 h5 h6 h7
    simp only [calculate_money]
    rw [if_neg (by push_neg; exact ⟨h1, h2, h3, h4⟩), if_neg (not_lt.mpr h5),
      if_neg (not_lt.mpr h6), if_pos h7]

/-- Witness for C4: each rule fires at a concrete input — rule 1 on
`(-1, 5, 0, 0)` (which also violates rule 2), rule 2 on `(1, 2, 0, 0)`,
rule 3 on `(10, 0, 0, 5)`, rule 4 on `(10, 10, 0, 20)`. -/
theorem calculate_money_validation_order_witness :
    calculate_money ⟨-1, 5, 0, 0, ""⟩ emptyStore =
      (.error (.invalidInput MSG_NEGATIVE), emptyStore) ∧
    calculate_money ⟨1, 2, 0, 0, ""⟩ emptyStore =
      (.error (.invalidInput MSG_EXCEEDS), emptyStore) ∧
    calculate_money ⟨10, 0, 0, 5, ""⟩ emptyStore =
      (.error (.invalidInput MSG_NEG_REMAINING), emptyStore) ∧
    calculate_money ⟨10, 10, 0, 20, ""⟩ emptyStore =
      (.error (.invalidInput MSG_NEG_CONSUMED), emptyStore) :=
  ⟨(calculate_money_validation_order ⟨-1, 5, 0, 0, ""⟩ emptyStore).2.1
      (by norm_num),
    (calculate_money_validation_order ⟨1, 2, 0, 0, ""⟩ emptyStore).2.2.1
      (by norm_num) (by norm_num) (by norm_num) (by norm_num) (by norm_num),
    (calculate_money_validation_order ⟨10, 0, 0, 5, ""⟩ emptyStore).2.2.2.1
      (by norm_num) (by norm_num) (by norm_num) (by norm_num) (by norm_num)
      (by norm_num),
    (calculate_money_validation_order ⟨10, 10, 0, 20, ""⟩ emptyStore).2.2.2.2
      (by norm_num) (by norm_num) (by norm_num) (by norm_num) (by norm_num)
      (by norm_num) (by norm_num)⟩

/-- C5: when all four validation rules pass, exactly one record is appended
to history (and settings are untouched) and the call succeeds; when any rule
fails, the store is returned unchanged and the call errors. -/
theorem calculate_money_persistence (data : CardCalculation) (db : Store) :
    (0 ≤ data.initial_total → 0 ≤ data.my_initial → 0 ≤ data.my_charge →
      0 ≤ data.final_total → data.my_initial ≤ data.initial_total →
      0 ≤ data.final_total - (data.initial_total - data.my_initial) →
      0 ≤ data.my_initial + data.my_charge -
        (data.final_total - (data.initial_total - data.my_initial)) →
      (calculate_money data db).2.history = mkRecord data db :: db.history ∧
      (calculate_money data db).2.settings = db.settings ∧
      ∃ res, (calculate_money data db).1 = .ok res) ∧
    ((data.initial_total < 0 ∨ data.my_initial < 0 ∨ data.my_charge < 0 ∨
        data.final_total < 0) ∨
      data.initial_total < data.my_initial ∨
      data.final_total - (data.initial_total - data.my_initial) < 0 ∨
      data.my_initial + data.my_charge -
        (data.final_total - (data.initial_total - data.my_initial)) < 0 →
      (calculate_money data db).2 = db ∧
      ∃ e, (calculate_money data db).1 = .error e) := by
  constructor
  · intro h1 h2 h3 h4 h5 h6 h7
    simp only [calculate_money]
    rw [if_neg (by push_neg; exact ⟨h1, h2, h3, h4⟩), if_neg (not_lt.mpr h5),
      if_neg (not_lt.mpr h6), if_neg (not_lt.mpr h7)]
    exact ⟨rfl, rfl, _, rfl⟩
  · intro hfail
    simp only [calculate_money]
    split_ifs with hc1 hc2 hc3 hc4
    · exact ⟨rfl, _, rfl⟩
    · exact ⟨rfl, _, rfl⟩
    · exact ⟨rfl, _, rfl⟩
    · exact ⟨rfl, _, rfl⟩
    · rcases hfail with h | h | h | h
      · exact absurd h hc1
      · exact absurd h hc2
      · exact absurd h hc3
      · exact absurd h hc4

/-- Witness for C5: the valid input `(100, 40, 10, 80)` appends exactly one
record to the empty store, and the invalid input `(-1, 0, 0, 0)` leaves the
store unchanged. -/
theorem calculate_money_persistence_witness :
    (calculate_money ⟨100, 40, 10, 80, ""⟩ emptyStore).2.history =
      mkRecord ⟨100, 40, 10, 80, ""⟩ emptyStore :: emptyStore.history ∧
    (calculate_money ⟨-1, 0, 0, 0, ""⟩ emptyStore).2 = emptyStore :=
  ⟨((calculate_money_persistence ⟨100, 40, 10, 80, ""⟩ emptyStore).1
      (by norm_num) (by norm_num) (by norm_num) (by norm_num) (by norm_num)
      (by norm_num) (by norm_num)).1,
    ((calculate_money_persistence ⟨-1, 0, 0, 0, ""⟩ emptyStore).2
      (Or.inl (by norm_num))).1⟩

/-- C6: `quick_calculate` on a store with no history fails with `NoHistory`
and returns the store unchanged (no derivation, no persistence). -/
theorem quick_calculate_empty_history (c f : Money) (note : String)
    (db : Store) (h : db.history = []) :
    quick_calculate c f note db = (.error .noHistory, db) := by
  simp [quick_calculate, h]

/-- Witness for C6: on the empty store, `quick_calculate 5 70` fails with
`NoHistory` and leaves the store as it was. -/
theorem quick_calculate_empty_history_witness :
    quick_calculate 5 70 "" emptyStore = (.error .noHistory, emptyStore) :=
  quick_calculate_empty_history 5 70 "" emptyStore rfl

/-- C7: any record in the store after a `calculate_money` or a
`quick_calculate` call either was already there or satisfies the
data-model invariants (`others_money = initial_total - my_initial`,
`my_remaining = final_total - others_money ≥ 0`,
`my_consumed = my_initial + my_charge - my_remaining ≥ 0`). -/
theorem persisted_record_invariants :
    (∀ (data : CardCalculation) (db : Store) (r : CalculationHistory),
      r ∈ (calculate_money data db).2.history →
      r ∈ db.history ∨ RecordInvariants r) ∧
    (∀ (c f : Money) (n : String) (db : Store) (r : CalculationHistory),
      r ∈ (quick_calculate c f n db).2.history →
      r ∈ db.history ∨ RecordInvariants r) := by
  have main : ∀ (data : CardCalculation) (db : Store) (r : CalculationHistory),
      r ∈ (calculate_money data db).2.history →
      r ∈ db.history ∨ RecordInvariants r := by
    intro data db r hr
    simp only [calculate_money] at hr
    split_ifs at hr with hc1 hc2 hc3 hc4
    · exact Or.inl hr
    · exact Or.inl hr
    · exact Or.inl hr
    · exact Or.inl hr
    · rcases List.mem_cons.mp hr with h | h
      · subst h
        exact Or.inr ⟨rfl, rfl, not_lt.mp hc3, rfl, not_lt.mp hc4⟩
      · exact Or.inl h
  refine ⟨main, ?_⟩
  intro c f n db r hr
  cases hh : db.history with
  | nil =>
    have hq : quick_calculate c f n db = (.error .noHistory, db) := by
      simp [quick_calculate, hh]
    rw [hq] at hr
    have hr' : r ∈ db.history := hr
    exact Or.inl (hh ▸ hr')
  | cons a tl =>
    have hq : quick_calculate c f n db = calculate_money
        ⟨a.others_money + a.my_remaining + c, a.my_remaining, c, f, n⟩ db := by
      simp [quick_calculate, hh]
    rw [hq] at hr
    exact (main _ db r hr).imp (fun h => hh ▸ h) id

/-- Witness for C7: the record persisted by the base calculation
`(100, 40, 10, 80)` on the empty store satisfies the data-model
invariants. -/
theorem persisted_record_invariants_witness :
    mkRecord ⟨100, 40, 10, 80, ""⟩ emptyStore ∈ emptyStore.history ∨
      RecordInvariants (mkRecord ⟨100, 40, 10, 80, ""⟩ emptyStore) :=
  persisted_record_invariants.1 ⟨100, 40, 10, 80, ""⟩ emptyStore
    (mkRecord ⟨100, 40, 10, 80, ""⟩ emptyStore)
    (by norm_num [calculate_money, emptyStore])

/-- C8: `delete_history` fails with `NotFound` exactly when no record has
the given id, and otherwise removes the first record with that id and
nothing else (settings untouched); `clear_all_history` empties both history
and settings, so `get_defaults` right after it returns the fallback. -/
theorem delete_and_clear_spec :
    (∀ (record_id : Nat) (db : Store),
      ((delete_history record_id db).1 = .error .notFound ↔
        ∀ r ∈ db.history, r.id ≠ record_id) ∧
      (∀ r ∈ db.history, r.id = record_id →
        ∃ pre x post, db.history = pre ++ x :: post ∧ x.id = record_id ∧
          (∀ y ∈ pre, y.id ≠ record_id) ∧
          (delete_history record_id db).2.history = pre ++ post ∧
          (delete_history record_id db).2.settings = db.settings ∧
          (delete_history record_id db).1 = .ok "记录已删除")) ∧
    (∀ db : Store, (clear_all_history db).history = [] ∧
      (clear_all_history db).settings = [] ∧
      get_defaults (clear_all_history db) =
        { others_money := 7, my_remaining := 0 }) := by
  refine ⟨fun record_id db => ⟨?_, ?_⟩, fun db => ⟨rfl, rfl, rfl⟩⟩
  · cases hf : db.history.find? (fun r => r.id == record_id) with
    | none =>
      simp only [delete_history, hf]
      have hnone := List.find?_eq_none.mp hf
      constructor
      · intro _ r hr
        simpa using hnone r hr
      · intro _
        trivial
    | some x =>
      simp only [delete_history, hf]
      have hx : x ∈ db.history := List.mem_of_find?_eq_some hf
      have hxid : x.id = record_id := by simpa using List.find?_some hf
      constructor
      · intro h
        exact absurd h (by simp)
      · intro h
        exact absurd (h x hx hxid) (by trivial)
  · intro r hr hid
    have hp : (fun s : CalculationHistory => s.id == record_id) r = true := by
      simpa using hid
    obtain ⟨x, pre, post, hpre, hpx, hsplit, herase⟩ :=
      @List.exists_of_eraseP _ (fun s => s.id == record_id) _ _ hr hp
    have hfind : db.history.find? (fun s => s.id == record_id) ≠ none := by
      intro hn
      exact absurd hp (by simpa using List.find?_eq_none.mp hn r hr)
    cases hf : db.history.find? (fun s => s.id == record_id) with
    | none => exact absurd hf hfind
    | some y =>
      refine ⟨pre, x, post, hsplit, by simpa using hpx, ?_, ?_, ?_, ?_⟩
      · intro z hz
        simpa using hpre z hz
      · simp only [delete_history, hf]
        exact herase
      · simp only [delete_history, hf]
      · simp only [delete_history, hf]

/-- Witness for C8: on the one-record store, deleting id 2 is `NotFound`,
deleting id 1 removes exactly that record, and a bulk clear followed by
`get_defaults` yields the fallback view. -/
theorem delete_and_clear_spec_witness :
    ((delete_history 2 baseStore).1 = .error .notFound ↔
      ∀ r ∈ baseStore.history, r.id ≠ 2) ∧
    (∃ pre x post, baseStore.history = pre ++ x :: post ∧ x.id = 1 ∧
      (∀ y ∈ pre, y.id ≠ 1) ∧
      (delete_history 1 baseStore).2.history = pre ++ post ∧
      (delete_history 1 baseStore).2.settings = baseStore.settings ∧
      (delete_history 1 baseStore).1 = .ok "记录已删除") ∧
    get_defaults (clear_all_history baseStore) =
      { others_money := 7, my_remaining := 0 } :=
  ⟨(delete_and_clear_spec.1 2 baseStore).1,
    (delete_and_clear_spec.1 1 baseStore).2 baseRecord (by simp [baseStore])
      (by simp [baseRecord]),
    (delete_and_clear_spec.2 baseStore).2.2⟩

/-- C9: `get_defaults` returns the latest record's `others_money` and
`my_remaining` when history is non-empty, and the fallback
`others_money = 7`, `my_remaining = 0` when it is empty. -/
theorem get_defaults_spec (db : Store) :
    (db.history = [] →
      get_defaults db = { others_money := 7, my_remaining := 0 }) ∧
    (∀ r tl, db.history = r :: tl →
      get_defaults db =
        { others_money := r.others_money, my_remaining := r.my_remaining }) := by
  constructor
  · intro h
    simp [get_defaults, h]
  · intro r tl h
    simp [get_defaults, h]

/-- Witness for C9: the fallback on the empty store and the latest record's
values on the one-record store. -/
theorem get_defaults_spec_witness :
    get_defaults emptyStore = { others_money := 7, my_remaining := 0 } ∧
    get_defaults baseStore =
      { others_money := baseRecord.others_money,
        my_remaining := baseRecord.my_remaining } :=
  ⟨(get_defaults_spec emptyStore).1 rfl,
    (get_defaults_spec baseStore).2 baseRecord [] rfl⟩

/-- C1: evaluation at the failing input. After the base calculation left
`others_money = 60`, `quick_calculate 5 70` persists a record with
`others_money = 65`, not 60: the engine recomputes
`others_money = new_initial_total - my_initial = 60 + 5`, so the value is
not carried forward unchanged. -/
theorem quick_calculate_changes_others_money :
    baseStore.history.head?.map (fun r => r.others_money) = some 60 ∧
    (quick_calculate 5 70 "" baseStore).2.history.length = 2 ∧
    (quick_calculate 5 70 "" baseStore).2.history.head?.map
      (fun r => r.others_money) = some 65 ∧
    (65 : Money) ≠ 60 := by
  refine ⟨by simp [baseStore, baseRecord], ?_, ?_, by norm_num⟩ <;>
    norm_num [quick_calculate, calculate_money, mkRecord, baseStore, baseRecord]

/-- C2: evaluation at the example. `quick_calculate 5 70` on the store whose
latest record has `others_money = 60`, `my_remaining = 20` does construct
the request `(initial_total = 85, my_initial = 20, my_charge = 5,
final_total = 70)` and delegates it to `calculate_money`, but the persisted
result is `others_money = 65`, `my_remaining = 5`, `my_consumed = 20` — not
the claimed `my_remaining = 10`, `my_consumed = 15`. -/
theorem quick_calculate_example_behavior :
    quick_calculate 5 70 "" baseStore = calculate_money ⟨85, 20, 5, 70, ""⟩ baseStore ∧
    (quick_calculate 5 70 "" baseStore).1.map
      (fun r => (r.others_money, r.my_remaining, r.my_consumed)) = .ok (65, 5, 20) ∧
    ¬((quick_calculate 5 70 "" baseStore).1.map
      (fun r => (r.my_remaining, r.my_consumed)) = .ok (10, 15)) := by
  refine ⟨?_, ?_, ?_⟩
  · norm_num [quick_calculate, baseStore, baseRecord]
  · norm_num [quick_calculate, calculate_money, mkRecord, baseStore, baseRecord,
      Except.map]
  · norm_num [quick_calculate, calculate_money, mkRecord, baseStore, baseRecord,
      Except.map]

/-- C10: for a `quick_calculate` call with `charge_amount ≥ 0` whose latest
record has `others_money ≥ 0` and `my_remaining ≥ 0`, the constructed
request always passes rule 2 and the non-negativity checks on
`initial_total`, `my_initial`, `my_charge`; if the call rejects, it is only
through `final_total < 0` (rule 1), negative `my_remaining` (rule 3) or
negative `my_consumed` (rule 4). -/
theorem quick_calculate_safe (c f : Money) (note : String) (db : Store)
    (latest : CalculationHistory) (hlatest : db.history.head? = some latest)
    (ho : 0 ≤ latest.others_money) (hb : 0 ≤ latest.my_remaining)
    (hc : 0 ≤ c) :
    quick_calculate c f note db = calculate_money
      ⟨latest.others_money + latest.my_remaining + c, latest.my_remaining,
        c, f, note⟩ db ∧
    0 ≤ latest.others_money + latest.my_remaining + c ∧
    0 ≤ latest.my_remaining ∧ 0 ≤ c ∧
    latest.my_remaining ≤ latest.others_money + latest.my_remaining + c ∧
    (∀ e, (quick_calculate c f note db).1 = .error e →
      (e = .invalidInput MSG_NEGATIVE ∧ f < 0) ∨
      e = .invalidInput MSG_NEG_REMAINING ∨
      e = .invalidInput MSG_NEG_CONSUMED) := by
  have hq : quick_calculate c f note db = calculate_money
      ⟨latest.others_money + latest.my_remaining + c, latest.my_remaining,
        c, f, note⟩ db := by
    simp [quick_calculate, hlatest]
  refine ⟨hq, by linarith, hb, hc, by linarith, ?_⟩
  intro e he
  rw [hq] at he
  simp only [calculate_money] at he
  split_ifs at he with h1 h2 h3 h4
  · rcases h1 with h | h | h | h
    · exact absurd h (not_lt.mpr (by linarith))
    · exact absurd h (not_lt.mpr hb)
    · exact absurd h (not_lt.mpr hc)
    · exact Or.inl ⟨by simpa using he.symm, h⟩
  · exact absurd h2 (not_lt.mpr (by linarith))
  · exact Or.inr (Or.inl (by simpa using he.symm))
  · exact Or.inr (Or.inr (by simpa using he.symm))

/-- Witness for C10 on the one-record store (`others_money = 60`,
`my_remaining = 20`) with `charge_amount = 5`, `final_total = 70`. -/
theorem quick_calculate_safe_witness :
    quick_calculate 5 70 "" baseStore = calculate_money
      ⟨baseRecord.others_money + baseRecord.my_remaining + 5,
        baseRecord.my_remaining, 5, 70, ""⟩ baseStore ∧
    0 ≤ baseRecord.others_money + baseRecord.my_remaining + 5 ∧
    0 ≤ baseRecord.my_remaining ∧ (0 : Money) ≤ 5 ∧
    baseRecord.my_remaining ≤ baseRecord.others_money + baseRecord.my_remaining + 5 ∧
    (∀ e, (quick_calculate 5 70 "" baseStore).1 = .error e →
      (e = .invalidInput MSG_NEGATIVE ∧ (70 : Money) < 0) ∨
      e = .invalidInput MSG_NEG_REMAINING ∨
      e = .invalidInput MSG_NEG_CONSUMED) :=
  quick_calculate_safe 5 70 "" baseStore baseRecord rfl
    (by norm_num [baseRecord]) (by norm_num [baseRecord]) (by norm_num)

end BalanceCalc
